import Mathlib

/-!
Shallow embedding of the ZenB breathing-session kernel
(src/services/ZenBKernel.ts, src/types.ts) and proofs of the spec claims.

Numbers that are TypeScript `number`s carrying fractional values (durations,
belief components, entropy, risk levels, dt) are modelled as rationals `ℚ`;
event/cycle counters and the pattern tier are modelled as `ℕ`.
Host inputs (`Date.now()`, `document.hidden`) are threaded as explicit
parameters. Presentation-only string fields of the pattern catalog
(label, tag, description, colorTheme) are omitted: the kernel never reads them.
-/

namespace ZenB

/-- `BreathPhase` from types.ts. -/
inductive BreathPhase where
  | inhale
  | holdIn
  | exhale
  | holdOut
deriving DecidableEq, Repr

/-- `BeliefState` from types.ts: arousal, attention, rhythm_alignment. -/
structure BeliefState where
  arousal : ℚ
  attention : ℚ
  rhythm_alignment : ℚ
deriving DecidableEq, Repr

/-- `Observation.user_interaction` values from types.ts. -/
inductive Interaction where
  | pause
  | resume
  | touch
deriving DecidableEq, Repr

/-- `Observation.visibilty_state` values from types.ts (sic: source spelling). -/
inductive Visibility where
  | visible
  | hidden
deriving DecidableEq, Repr

/-- `Observation` from types.ts. -/
structure Observation where
  timestamp : ℚ
  user_interaction : Option Interaction
  visibilty_state : Visibility
  delta_time : ℚ
deriving DecidableEq, Repr

/-- `USER_INTERRUPTION.kind` values from types.ts. -/
inductive InterruptionKind where
  | pause
  | background
deriving DecidableEq, Repr

/-- `KernelEvent` from types.ts (timestamps as ℚ; `from`/`to` renamed to
`fromPhase`/`toPhase` because `from` is a Lean keyword). -/
inductive KernelEvent where
  | BOOT (timestamp : ℚ)
  | LOAD_PROTOCOL (patternId : String) (timestamp : ℚ)
  | START_SESSION (timestamp : ℚ)
  | TICK (dt : ℚ) (timestamp : ℚ)
  | PHASE_TRANSITION (fromPhase toPhase : BreathPhase) (timestamp : ℚ)
  | CYCLE_COMPLETE (count : ℕ) (timestamp : ℚ)
  | USER_INTERRUPTION (kind : InterruptionKind) (timestamp : ℚ)
  | RESUME_SESSION (timestamp : ℚ)
  | HALT (reason : String) (timestamp : ℚ)
  | SAFETY_INTERVENTION (riskLevel : ℚ) (action : String) (timestamp : ℚ)
deriving DecidableEq, Repr

/-- `TraumaRecord` from types.ts. -/
structure TraumaRecord where
  patternId : String
  total_exposure_seconds : ℚ
  adverse_events : ℕ
  resonance_score : ℚ
  last_updated : ℚ
deriving DecidableEq, Repr

/-- `BreathPattern.timings : Record<BreathPhase, number>` from types.ts. -/
structure Timings where
  inhale : ℚ
  holdIn : ℚ
  exhale : ℚ
  holdOut : ℚ
deriving DecidableEq, Repr

/-- Look a phase up in a timings record (`pattern.timings[phase]`). -/
def Timings.get (t : Timings) : BreathPhase → ℚ
  | .inhale => t.inhale
  | .holdIn => t.holdIn
  | .exhale => t.exhale
  | .holdOut => t.holdOut

/-- `BreathPattern` from types.ts (presentation-only string fields omitted). -/
structure BreathPattern where
  id : String
  timings : Timings
  recommendedCycles : ℕ
  tier : ℕ
deriving DecidableEq, Repr

/-- The static catalog `BREATHING_PATTERNS` from types.ts, as a lookup
map `string → pattern` (TS `Record<string, BreathPattern>`). -/
def BREATHING_PATTERNS : String → Option BreathPattern
  | "4-7-8" => some ⟨"4-7-8", ⟨4, 7, 8, 0⟩, 4, 1⟩
  | "box" => some ⟨"box", ⟨4, 4, 4, 4⟩, 6, 1⟩
  | "calm" => some ⟨"calm", ⟨4, 0, 6, 0⟩, 8, 1⟩
  | "coherence" => some ⟨"coherence", ⟨6, 0, 6, 0⟩, 10, 2⟩
  | "deep-relax" => some ⟨"deep-relax", ⟨4, 0, 8, 0⟩, 6, 1⟩
  | "7-11" => some ⟨"7-11", ⟨7, 0, 11, 0⟩, 4, 2⟩
  | "awake" => some ⟨"awake", ⟨4, 0, 2, 0⟩, 15, 2⟩
  | "triangle" => some ⟨"triangle", ⟨4, 4, 4, 0⟩, 8, 1⟩
  | "tactical" => some ⟨"tactical", ⟨5, 5, 5, 5⟩, 5, 2⟩
  | "buteyko" => some ⟨"buteyko", ⟨3, 0, 3, 4⟩, 12, 3⟩
  | "wim-hof" => some ⟨"wim-hof", ⟨2.5, 0, 1.5, 0⟩, 30, 3⟩
  | _ => none

/-- `RuntimeState.status` values from ZenBKernel.ts. -/
inductive Status where
  | IDLE
  | RUNNING
  | PAUSED
  | HALTED
  | SAFETY_LOCK
deriving DecidableEq, Repr

/-- `RuntimeState` from ZenBKernel.ts. -/
structure RuntimeState where
  status : Status
  pattern : Option BreathPattern
  phase : BreathPhase
  phaseElapsed : ℚ
  phaseDuration : ℚ
  cycleCount : ℕ
  sessionDuration : ℚ
  belief : BeliefState
  entropy : ℚ
deriving DecidableEq, Repr

/-- The trust registry `Record<string, TraumaRecord>`, as an association list
with first-match lookup. -/
def Registry := List (String × TraumaRecord)

/-- Registry lookup (`registry[state.pattern.id]`). -/
def Registry.find (reg : Registry) (id : String) : Option TraumaRecord :=
  match reg with
  | [] => none
  | (k, v) :: rest => if k = id then some v else Registry.find rest id

/-- `ActiveInferenceModel.update` from ZenBKernel.ts. -/
def update (currentBelief : BeliefState) (observation : Observation)
    (isRunning : Bool) : BeliefState :=
  let dt := observation.delta_time
  if !isRunning then
    { arousal := max 0 (currentBelief.arousal - 0.1 * dt)
      attention := max 0 (currentBelief.attention - 0.2 * dt)
      rhythm_alignment := max 0 (currentBelief.rhythm_alignment - 0.1 * dt) }
  else
    let isInterrupted := observation.visibilty_state = Visibility.hidden ∨
      observation.user_interaction = some Interaction.pause
    if isInterrupted then
      { arousal := min 1 (currentBelief.arousal + 0.3 * dt)
        attention := max 0 (currentBelief.attention - 0.5 * dt)
        rhythm_alignment := max 0 (currentBelief.rhythm_alignment - 0.4 * dt) }
    else
      { arousal := max 0 (currentBelief.arousal - 0.05 * dt)
        attention := min 1 (currentBelief.attention + 0.1 * dt)
        rhythm_alignment := min 1 (currentBelief.rhythm_alignment + 0.2 * dt) }

/-- `ActiveInferenceModel.calculateEntropy` from ZenBKernel.ts:
`Math.min(1, Math.max(0, arousal * (1 - rhythm_alignment * 0.8)))`. -/
def calculateEntropy (belief : BeliefState) : ℚ :=
  min 1 (max 0 (belief.arousal * (1 - belief.rhythm_alignment * 0.8)))

/-- `HippocraticGuard.check` from ZenBKernel.ts. `now` stands for the
`Date.now()` read when building the intervention event. -/
def check (state : RuntimeState) (registry : Registry) (now : ℚ) :
    Option KernelEvent :=
  match state.pattern with
  | none => none
  | some pattern =>
    let guard1 :=
      match Registry.find registry pattern.id with
      | some record =>
        if record.resonance_score < 0.3 ∧ state.entropy > 0.8 then
          some (KernelEvent.SAFETY_INTERVENTION 0.9 "HALT_PREVENTATIVE" now)
        else none
      | none => none
    match guard1 with
    | some e => some e
    | none =>
      if pattern.tier = 2 ∧ state.cycleCount > 30 ∧ state.belief.arousal > 0.9 then
        some (KernelEvent.SAFETY_INTERVENTION 0.8 "COOLDOWN_FORCED" now)
      else none

/-- Successor in the fixed cyclical phase order
inhale → holdIn → exhale → holdOut → inhale. -/
def nextPhase : BreathPhase → BreathPhase
  | .inhale => .holdIn
  | .holdIn => .exhale
  | .exhale => .holdOut
  | .holdOut => .inhale

/-- Modelled from the spec: `nextPhaseSkipZero` of the phaseMachine module,
which ZenBKernel.ts imports but whose source file is not in the repository
snapshot. Per §4.1: produce the next phase in the fixed cyclical order,
skipping any phase whose configured duration is zero; the skip loop is
bounded by at most 3 skips, and if every later phase is zero-duration the
result falls back to the successor of the current phase. -/
def nextPhaseSkipZero (p : BreathPhase) (pattern : BreathPattern) : BreathPhase :=
  let p1 := nextPhase p
  if pattern.timings.get p1 ≠ 0 then p1
  else
    let p2 := nextPhase p1
    if pattern.timings.get p2 ≠ 0 then p2
    else
      let p3 := nextPhase p2
      if pattern.timings.get p3 ≠ 0 then p3
      else p1

/-- Modelled from the spec: `isCycleBoundary` of the phaseMachine module,
which ZenBKernel.ts imports but whose source file is not in the repository
snapshot. Per §4.1: true exactly when the phase is inhale (transitioning
into inhale closes a cycle). -/
def isCycleBoundary (p : BreathPhase) : Bool :=
  p = BreathPhase.inhale

/-- `ZenBKernel.getInitialState` from ZenBKernel.ts. -/
def getInitialState : RuntimeState where
  status := .IDLE
  pattern := none
  phase := .inhale
  phaseElapsed := 0
  phaseDuration := 0
  cycleCount := 0
  sessionDuration := 0
  belief := { arousal := 0.2, attention := 0.5, rhythm_alignment := 0.0 }
  entropy := 0.2

/-- The mutable fields of class `ZenBKernel` that the reducer touches:
authoritative state, append-only event log, injected safety registry.
(The subscriber set only forwards snapshots and is omitted.) -/
structure Kernel where
  state : RuntimeState
  eventLog : List KernelEvent
  safetyRegistry : Registry

/-- The trailing `this.state.entropy = this.inference.calculateEntropy(...)`
of `ZenBKernel.reduce`. -/
def recomputeEntropy (s : RuntimeState) : RuntimeState :=
  { s with entropy := calculateEntropy s.belief }

/-- The non-TICK cases of `ZenBKernel.reduce`, including the trailing
entropy recomputation. An unresolvable LOAD_PROTOCOL id takes the early
`return`, which skips even the entropy recomputation. -/
def reduceStep (s : RuntimeState) (e : KernelEvent) : RuntimeState :=
  match e with
  | .LOAD_PROTOCOL patternId _ =>
    match BREATHING_PATTERNS patternId with
    | none => s
    | some pattern =>
      recomputeEntropy
        { s with
          pattern := some pattern
          phase := .inhale
          phaseDuration := pattern.timings.inhale
          phaseElapsed := 0
          cycleCount := 0
          sessionDuration := 0
          status := .IDLE
          belief := { s.belief with rhythm_alignment := 0.0 } }
  | .START_SESSION _ =>
    recomputeEntropy
      (if s.pattern.isSome then { s with status := .RUNNING } else s)
  | .USER_INTERRUPTION _ _ =>
    recomputeEntropy
      (if s.status = .RUNNING then
        { s with
          status := .PAUSED
          belief := { s.belief with
            attention := s.belief.attention * 0.8
            rhythm_alignment := s.belief.rhythm_alignment * 0.5 } }
      else s)
  | .RESUME_SESSION _ =>
    recomputeEntropy
      (if s.status = .PAUSED then { s with status := .RUNNING } else s)
  | .HALT _ _ =>
    recomputeEntropy { s with status := .IDLE }
  | .SAFETY_INTERVENTION _ _ _ =>
    recomputeEntropy { s with status := .SAFETY_LOCK }
  | .PHASE_TRANSITION _ toPhase _ =>
    recomputeEntropy
      { s with
        phase := toPhase
        phaseElapsed := 0
        phaseDuration :=
          match s.pattern with
          | some pattern => pattern.timings.get toPhase
          | none => 0 }
  | .CYCLE_COMPLETE count _ =>
    recomputeEntropy { s with cycleCount := count }
  | .BOOT _ => recomputeEntropy s
  | .TICK _ _ => s

/-- `ZenBKernel.dispatch` restricted to the events the kernel generates
internally during a tick (PHASE_TRANSITION, CYCLE_COMPLETE,
SAFETY_INTERVENTION — none of them a TICK): append to the log, reduce. -/
def dispatchInternal (k : Kernel) (e : KernelEvent) : Kernel :=
  { k with
    eventLog := k.eventLog ++ [e]
    state := reduceStep k.state e }

/-- `ZenBKernel.transitionPhase` from ZenBKernel.ts: emit PHASE_TRANSITION
and, at a cycle boundary, CYCLE_COMPLETE with the incremented count. -/
def transitionPhase (k : Kernel) (now : ℚ) : Kernel :=
  match k.state.pattern with
  | none => k
  | some pattern =>
    let currentP := k.state.phase
    let nextP := nextPhaseSkipZero currentP pattern
    let k1 := dispatchInternal k (.PHASE_TRANSITION currentP nextP now)
    if isCycleBoundary nextP then
      dispatchInternal k1 (.CYCLE_COMPLETE (k1.state.cycleCount + 1) now)
    else k1

/-- `ZenBKernel.handleTick` from ZenBKernel.ts. `now` stands for the
`Date.now()` reads and `docHidden` for `document.hidden`. -/
def handleTick (k : Kernel) (dt : ℚ) (now : ℚ) (docHidden : Bool) : Kernel :=
  let obs : Observation :=
    { timestamp := now
      delta_time := dt
      visibilty_state := if docHidden then .hidden else .visible
      user_interaction :=
        if k.state.status = .PAUSED then some .pause else none }
  let k1 : Kernel :=
    { k with state := { k.state with
        belief := update k.state.belief obs (k.state.status = .RUNNING) } }
  if k1.state.status ≠ .RUNNING ∨ k1.state.pattern = none then k1
  else
    let k2 : Kernel :=
      { k1 with state := { k1.state with
          phaseElapsed := k1.state.phaseElapsed + dt
          sessionDuration := k1.state.sessionDuration + dt } }
    let k3 :=
      if k2.state.phaseElapsed ≥ k2.state.phaseDuration then
        transitionPhase k2 now
      else k2
    match check k3.state k3.safetyRegistry now with
    | some hazard => dispatchInternal k3 hazard
    | none => k3

/-- `ZenBKernel.dispatch` from ZenBKernel.ts: append the event to the log,
then reduce it (a TICK runs `handleTick` and then the trailing entropy
recomputation of `reduce`). -/
def dispatch (k : Kernel) (e : KernelEvent) (docHidden : Bool) : Kernel :=
  match e with
  | .TICK dt ts =>
    let k1 := handleTick { k with eventLog := k.eventLog ++ [e] } dt ts docHidden
    { k1 with state := recomputeEntropy k1.state }
  | _ =>
    { k with
      eventLog := k.eventLog ++ [e]
      state := reduceStep k.state e }

/-- The kernel as built by the `ZenBKernel` constructor: initial state,
empty log and registry, then a BOOT dispatch (its `Date.now()` taken as 0). -/
def initKernel : Kernel :=
  dispatch { state := getInitialState, eventLog := [], safetyRegistry := [] }
    (.BOOT 0) false

/-- Run a sequence of dispatches; each input carries the event together with
the `document.hidden` flag in force at that dispatch. -/
def runKernel (k : Kernel) (inputs : List (KernelEvent × Bool)) : Kernel :=
  inputs.foldl (fun acc i => dispatch acc i.1 i.2) k

/-! ## Helper lemmas -/

lemma recomputeEntropy_establishes (s : RuntimeState) :
    (recomputeEntropy s).entropy = calculateEntropy (recomputeEntropy s).belief := rfl

lemma reduceStep_establishes (s : RuntimeState) (e : KernelEvent)
    (h : s.entropy = calculateEntropy s.belief) :
    (reduceStep s e).entropy = calculateEntropy (reduceStep s e).belief := by
  cases e with
  | BOOT t => rfl
  | LOAD_PROTOCOL pid t =>
    simp only [reduceStep]
    cases hp : BREATHING_PATTERNS pid with
    | none => simpa [hp] using h
    | some pattern => simp [hp, recomputeEntropy]
  | START_SESSION t => rfl
  | TICK dt t => exact h
  | PHASE_TRANSITION p q t => rfl
  | CYCLE_COMPLETE c t => rfl
  | USER_INTERRUPTION kind t => rfl
  | RESUME_SESSION t => rfl
  | HALT r t => rfl
  | SAFETY_INTERVENTION r a t => rfl

lemma dispatch_establishes (k : Kernel) (e : KernelEvent) (hd : Bool)
    (h : k.state.entropy = calculateEntropy k.state.belief) :
    (dispatch k e hd).state.entropy =
      calculateEntropy (dispatch k e hd).state.belief := by
  cases e with
  | TICK dt t => rfl
  | BOOT t => exact reduceStep_establishes _ _ h
  | LOAD_PROTOCOL pid t => exact reduceStep_establishes _ _ h
  | START_SESSION t => exact reduceStep_establishes _ _ h
  | PHASE_TRANSITION p q t => exact reduceStep_establishes _ _ h
  | CYCLE_COMPLETE c t => exact reduceStep_establishes _ _ h
  | USER_INTERRUPTION kind t => exact reduceStep_establishes _ _ h
  | RESUME_SESSION t => exact reduceStep_establishes _ _ h
  | HALT r t => exact reduceStep_establishes _ _ h
  | SAFETY_INTERVENTION r a t => exact reduceStep_establishes _ _ h

lemma runKernel_establishes (inputs : List (KernelEvent × Bool)) (k : Kernel)
    (h : k.state.entropy = calculateEntropy k.state.belief) :
    (runKernel k inputs).state.entropy =
      calculateEntropy (runKernel k inputs).state.belief := by
  induction inputs generalizing k with
  | nil => exact h
  | cons i rest ih =>
    exact ih (dispatch k i.1 i.2) (dispatch_establishes k i.1 i.2 h)

lemma check_guard2_none (s : RuntimeState) (reg : Registry) (now : ℚ)
    (pat : BreathPattern) (hpat : s.pattern = some pat)
    (hfind : Registry.find reg pat.id = none) (htier : pat.tier ≠ 2) :
    check s reg now = none := by
  simp [check, hpat, hfind, htier]

lemma dispatch_tick_eq (k : Kernel) (dt ts : ℚ) (hd : Bool) :
    dispatch k (.TICK dt ts) hd =
      { handleTick { k with eventLog := k.eventLog ++ [.TICK dt ts] } dt ts hd with
        state :=
          recomputeEntropy
            (handleTick { k with eventLog := k.eventLog ++ [.TICK dt ts] } dt ts hd).state } :=
  rfl

lemma transitionPhase_no_cycle (k : Kernel) (now : ℚ) (pat : BreathPattern)
    (p2 : BreathPhase) (hpat : k.state.pattern = some pat)
    (hnext : nextPhaseSkipZero k.state.phase pat = p2)
    (hcb : isCycleBoundary p2 = false) :
    transitionPhase k now =
      dispatchInternal k (.PHASE_TRANSITION k.state.phase p2 now) := by
  simp [transitionPhase, hpat, hnext, hcb]

lemma transitionPhase_cycle (k : Kernel) (now : ℚ) (pat : BreathPattern)
    (p2 : BreathPhase) (hpat : k.state.pattern = some pat)
    (hnext : nextPhaseSkipZero k.state.phase pat = p2)
    (hcb : isCycleBoundary p2 = true) :
    transitionPhase k now =
      dispatchInternal (dispatchInternal k (.PHASE_TRANSITION k.state.phase p2 now))
        (.CYCLE_COMPLETE
          ((dispatchInternal k (.PHASE_TRANSITION k.state.phase p2 now)).state.cycleCount + 1)
          now) := by
  simp [transitionPhase, hpat, hnext, hcb]

lemma handleTick_running_no_transition (k k2 : Kernel) (dt now : ℚ)
    (pat : BreathPattern) (b2 : BeliefState)
    (hst : k.state.status = .RUNNING)
    (hpat : k.state.pattern = some pat)
    (hb : update k.state.belief ⟨now, none, .visible, dt⟩ true = b2)
    (hel : ¬ (k.state.phaseElapsed + dt ≥ k.state.phaseDuration))
    (hk2 : k2 = { k with state := { k.state with
        belief := b2
        phaseElapsed := k.state.phaseElapsed + dt
        sessionDuration := k.state.sessionDuration + dt } })
    (hchk : check k2.state k2.safetyRegistry now = none) :
    handleTick k dt now false = k2 := by
  subst hk2
  simp only [handleTick, hst, hpat]
  rw [if_neg (by simp)]
  simp only [show (Status.RUNNING = Status.PAUSED) = False from by simp,
    show (false = true) = False from by simp, if_false, decide_True, hb]
  rw [if_neg hel]
  simp only [hst, hpat] at hchk
  dsimp only at hchk ⊢
  rw [hchk]

lemma handleTick_running_transition (k k2 k3 : Kernel) (dt now : ℚ)
    (pat : BreathPattern) (b2 : BeliefState)
    (hst : k.state.status = .RUNNING)
    (hpat : k.state.pattern = some pat)
    (hb : update k.state.belief ⟨now, none, .visible, dt⟩ true = b2)
    (hel : k.state.phaseElapsed + dt ≥ k.state.phaseDuration)
    (hk2 : k2 = { k with state := { k.state with
        belief := b2
        phaseElapsed := k.state.phaseElapsed + dt
        sessionDuration := k.state.sessionDuration + dt } })
    (hk3 : transitionPhase k2 now = k3)
    (hchk : check k3.state k3.safetyRegistry now = none) :
    handleTick k dt now false = k3 := by
  subst hk2
  simp only [handleTick, hst, hpat]
  rw [if_neg (by simp)]
  simp only [show (Status.RUNNING = Status.PAUSED) = False from by simp,
    show (false = true) = False from by simp, if_false, decide_True, hb]
  rw [if_pos hel]
  simp only [hst, hpat] at hk3
  rw [hk3, hchk]

/-! ## Claim theorems -/

lemma update_running_uninterrupted (b : BeliefState) (t dt : ℚ) :
    update b ⟨t, none, .visible, dt⟩ true =
      { arousal := max 0 (b.arousal - 0.05 * dt)
        attention := min 1 (b.attention + 0.1 * dt)
        rhythm_alignment := min 1 (b.rhythm_alignment + 0.2 * dt) } := by
  simp [update]

/-- Shorthand constructor for fully explicit kernels (proof scaffolding). -/
def mkKernel (st : Status) (pat : Option BreathPattern) (ph : BreathPhase)
    (el du : ℚ) (cy : ℕ) (se : ℚ) (b : BeliefState) (en : ℚ)
    (log : List KernelEvent) : Kernel where
  state :=
    { status := st, pattern := pat, phase := ph, phaseElapsed := el
      phaseDuration := du, cycleCount := cy, sessionDuration := se
      belief := b, entropy := en }
  eventLog := log
  safetyRegistry := []

/-- The `box` catalog entry. -/
def boxPattern : BreathPattern := ⟨"box", ⟨4, 4, 4, 4⟩, 6, 1⟩

/-- The kernel after LOAD_PROTOCOL "box" and START_SESSION. -/
def boxStarted : Kernel :=
  runKernel initKernel [(.LOAD_PROTOCOL "box" 0, false), (.START_SESSION 0, false)]

def boxTick1 : Kernel := dispatch boxStarted (.TICK 4 0) false
def boxTick2 : Kernel := dispatch boxTick1 (.TICK 4 0) false
def boxTick3 : Kernel := dispatch boxTick2 (.TICK 4 0) false
def boxTick4 : Kernel := dispatch boxTick3 (.TICK 4 0) false

def boxS : Kernel :=
  mkKernel .RUNNING (some boxPattern) .inhale 0 4 0 0 ⟨0.2, 0.5, 0⟩ 0.2
    [.BOOT 0, .LOAD_PROTOCOL "box" 0, .START_SESSION 0]

def boxM1 : Kernel :=
  mkKernel .RUNNING (some boxPattern) .inhale 4 4 0 4 ⟨0, 0.9, 0.8⟩ 0.2
    [.BOOT 0, .LOAD_PROTOCOL "box" 0, .START_SESSION 0, .TICK 4 0]

def boxK1 : Kernel :=
  mkKernel .RUNNING (some boxPattern) .holdIn 0 4 0 4 ⟨0, 0.9, 0.8⟩ 0
    [.BOOT 0, .LOAD_PROTOCOL "box" 0, .START_SESSION 0, .TICK 4 0,
      .PHASE_TRANSITION .inhale .holdIn 0]

def boxM2 : Kernel :=
  mkKernel .RUNNING (some boxPattern) .holdIn 4 4 0 8 ⟨0, 1, 1⟩ 0
    [.BOOT 0, .LOAD_PROTOCOL "box" 0, .START_SESSION 0, .TICK 4 0,
      .PHASE_TRANSITION .inhale .holdIn 0, .TICK 4 0]

def boxK2 : Kernel :=
  mkKernel .RUNNING (some boxPattern) .exhale 0 4 0 8 ⟨0, 1, 1⟩ 0
    [.BOOT 0, .LOAD_PROTOCOL "box" 0, .START_SESSION 0, .TICK 4 0,
      .PHASE_TRANSITION .inhale .holdIn 0, .TICK 4 0,
      .PHASE_TRANSITION .holdIn .exhale 0]

def boxM3 : Kernel :=
  mkKernel .RUNNING (some boxPattern) .exhale 4 4 0 12 ⟨0, 1, 1⟩ 0
    [.BOOT 0, .LOAD_PROTOCOL "box" 0, .START_SESSION 0, .TICK 4 0,
      .PHASE_TRANSITION .inhale .holdIn 0, .TICK 4 0,
      .PHASE_TRANSITION .holdIn .exhale 0, .TICK 4 0]

def boxK3 : Kernel :=
  mkKernel .RUNNING (some boxPattern) .holdOut 0 4 0 12 ⟨0, 1, 1⟩ 0
    [.BOOT 0, .LOAD_PROTOCOL "box" 0, .START_SESSION 0, .TICK 4 0,
      .PHASE_TRANSITION .inhale .holdIn 0, .TICK 4 0,
      .PHASE_TRANSITION .holdIn .exhale 0, .TICK 4 0,
      .PHASE_TRANSITION .exhale .holdOut 0]

def boxM4 : Kernel :=
  mkKernel .RUNNING (some boxPattern) .holdOut 4 4 0 16 ⟨0, 1, 1⟩ 0
    [.BOOT 0, .LOAD_PROTOCOL "box" 0, .START_SESSION 0, .TICK 4 0,
      .PHASE_TRANSITION .inhale .holdIn 0, .TICK 4 0,
      .PHASE_TRANSITION .holdIn .exhale 0, .TICK 4 0,
      .PHASE_TRANSITION .exhale .holdOut 0, .TICK 4 0]

def boxK4 : Kernel :=
  mkKernel .RUNNING (some boxPattern) .inhale 0 4 1 16 ⟨0, 1, 1⟩ 0
    [.BOOT 0, .LOAD_PROTOCOL "box" 0, .START_SESSION 0, .TICK 4 0,
      .PHASE_TRANSITION .inhale .holdIn 0, .TICK 4 0,
      .PHASE_TRANSITION .holdIn .exhale 0, .TICK 4 0,
      .PHASE_TRANSITION .exhale .holdOut 0, .TICK 4 0,
      .PHASE_TRANSITION .holdOut .inhale 0, .CYCLE_COMPLETE 1 0]

lemma boxStarted_eq : boxStarted = boxS := by
  norm_num [boxStarted, runKernel, initKernel, dispatch, reduceStep, recomputeEntropy,
    calculateEntropy, getInitialState, BREATHING_PATTERNS, boxS, mkKernel, boxPattern,
    List.foldl, Kernel.mk.injEq, RuntimeState.mk.injEq, BeliefState.mk.injEq]

lemma boxTick1_eq : boxTick1 = boxK1 := by
  have hh : handleTick { boxS with eventLog := boxS.eventLog ++ [.TICK 4 0] } 4 0 false
      = boxK1 :=
    handleTick_running_transition _ boxM1 boxK1 4 0 boxPattern ⟨0, 0.9, 0.8⟩
      rfl rfl
      (by rw [update_running_uninterrupted]
          norm_num [boxS, mkKernel, BeliefState.mk.injEq])
      (by norm_num [boxS, mkKernel])
      (by norm_num [boxS, boxM1, mkKernel, Kernel.mk.injEq, RuntimeState.mk.injEq,
            BeliefState.mk.injEq])
      (by rw [transitionPhase_no_cycle boxM1 0 boxPattern .holdIn rfl
            (by norm_num [nextPhaseSkipZero, nextPhase, Timings.get, boxPattern, boxM1,
              mkKernel]) rfl]
          norm_num [dispatchInternal, reduceStep, recomputeEntropy, calculateEntropy,
            boxM1, boxK1, mkKernel, boxPattern, Timings.get, Kernel.mk.injEq,
            RuntimeState.mk.injEq, BeliefState.mk.injEq])
      (check_guard2_none _ _ _ boxPattern rfl rfl (by norm_num [boxPattern]))
  simp only [boxTick1, boxStarted_eq]
  rw [dispatch_tick_eq, hh]
  norm_num [boxK1, mkKernel, recomputeEntropy, calculateEntropy, Kernel.mk.injEq,
    RuntimeState.mk.injEq]

lemma boxTick2_eq : boxTick2 = boxK2 := by
  have hh : handleTick { boxK1 with eventLog := boxK1.eventLog ++ [.TICK 4 0] } 4 0 false
      = boxK2 :=
    handleTick_running_transition _ boxM2 boxK2 4 0 boxPattern ⟨0, 1, 1⟩
      rfl rfl
      (by rw [update_running_uninterrupted]
          norm_num [boxK1, mkKernel, BeliefState.mk.injEq])
      (by norm_num [boxK1, mkKernel])
      (by norm_num [boxK1, boxM2, mkKernel, Kernel.mk.injEq, RuntimeState.mk.injEq,
            BeliefState.mk.injEq])
      (by rw [transitionPhase_no_cycle boxM2 0 boxPattern .exhale rfl
            (by norm_num [nextPhaseSkipZero, nextPhase, Timings.get, boxPattern, boxM2,
              mkKernel]) rfl]
          norm_num [dispatchInternal, reduceStep, recomputeEntropy, calculateEntropy,
            boxM2, boxK2, mkKernel, boxPattern, Timings.get, Kernel.mk.injEq,
            RuntimeState.mk.injEq, BeliefState.mk.injEq])
      (check_guard2_none _ _ _ boxPattern rfl rfl (by norm_num [boxPattern]))
  simp only [boxTick2, boxTick1_eq]
  rw [dispatch_tick_eq, hh]
  norm_num [boxK2, mkKernel, recomputeEntropy, calculateEntropy, Kernel.mk.injEq,
    RuntimeState.mk.injEq]

lemma boxTick3_eq : boxTick3 = boxK3 := by
  have hh : handleTick { boxK2 with eventLog := boxK2.eventLog ++ [.TICK 4 0] } 4 0 false
      = boxK3 :=
    handleTick_running_transition _ boxM3 boxK3 4 0 boxPattern ⟨0, 1, 1⟩
      rfl rfl
      (by rw [update_running_uninterrupted]
          norm_num [boxK2, mkKernel, BeliefState.mk.injEq])
      (by norm_num [boxK2, mkKernel])
      (by norm_num [boxK2, boxM3, mkKernel, Kernel.mk.injEq, RuntimeState.mk.injEq,
            BeliefState.mk.injEq])
      (by rw [transitionPhase_no_cycle boxM3 0 boxPattern .holdOut rfl
            (by norm_num [nextPhaseSkipZero, nextPhase, Timings.get, boxPattern, boxM3,
              mkKernel]) rfl]
          norm_num [dispatchInternal, reduceStep, recomputeEntropy, calculateEntropy,
            boxM3, boxK3, mkKernel, boxPattern, Timings.get, Kernel.mk.injEq,
            RuntimeState.mk.injEq, BeliefState.mk.injEq])
      (check_guard2_none _ _ _ boxPattern rfl rfl (by norm_num [boxPattern]))
  simp only [boxTick3, boxTick2_eq]
  rw [dispatch_tick_eq, hh]
  norm_num [boxK3, mkKernel, recomputeEntropy, calculateEntropy, Kernel.mk.injEq,
    RuntimeState.mk.injEq]

lemma boxTick4_eq : boxTick4 = boxK4 := by
  have hh : handleTick { boxK3 with eventLog := boxK3.eventLog ++ [.TICK 4 0] } 4 0 false
      = boxK4 :=
    handleTick_running_transition _ boxM4 boxK4 4 0 boxPattern ⟨0, 1, 1⟩
      rfl rfl
      (by rw [update_running_uninterrupted]
          norm_num [boxK3, mkKernel, BeliefState.mk.injEq])
      (by norm_num [boxK3, mkKernel])
      (by norm_num [boxK3, boxM4, mkKernel, Kernel.mk.injEq, RuntimeState.mk.injEq,
            BeliefState.mk.injEq])
      (by rw [transitionPhase_cycle boxM4 0 boxPattern .inhale rfl
            (by norm_num [nextPhaseSkipZero, nextPhase, Timings.get, boxPattern, boxM4,
              mkKernel]) rfl]
          norm_num [dispatchInternal, reduceStep, recomputeEntropy, calculateEntropy,
            boxM4, boxK4, mkKernel, boxPattern, Timings.get, Kernel.mk.injEq,
            RuntimeState.mk.injEq, BeliefState.mk.injEq])
      (check_guard2_none _ _ _ boxPattern rfl rfl (by norm_num [boxPattern]))
  simp only [boxTick4, boxTick3_eq]
  rw [dispatch_tick_eq, hh]
  norm_num [boxK4, mkKernel, recomputeEntropy, calculateEntropy, Kernel.mk.injEq,
    RuntimeState.mk.injEq]

/-- C2: In every state reachable by any sequence of dispatches from the
initial kernel state, the entropy field equals
`clamp01(arousal * (1 - 0.8 * rhythm_alignment))` of the current belief:
every dispatch re-establishes the equation, entropy is never set
independently of belief. -/
theorem entropy_always_derived_from_belief (inputs : List (KernelEvent × Bool)) :
    (runKernel initKernel inputs).state.entropy =
      calculateEntropy (runKernel initKernel inputs).state.belief :=
  runKernel_establishes inputs initKernel (recomputeEntropy_establishes getInitialState)

/-- C3: with pattern `box` (4-4-4-4) loaded and started, empty trust registry,
page visible throughout, four consecutive TICK dispatches with dt = 4.0
produce exactly the phase transitions inhale→holdIn, holdIn→exhale,
exhale→holdOut (each with no CYCLE_COMPLETE event), then holdOut→inhale
together with exactly one CYCLE_COMPLETE carrying count = 1. -/
theorem box_four_ticks_one_cycle :
    boxTick1.eventLog = boxStarted.eventLog ++
      [.TICK 4 0, .PHASE_TRANSITION .inhale .holdIn 0] ∧
    boxTick1.state.phase = .holdIn ∧ boxTick1.state.cycleCount = 0 ∧
    boxTick2.eventLog = boxTick1.eventLog ++
      [.TICK 4 0, .PHASE_TRANSITION .holdIn .exhale 0] ∧
    boxTick2.state.phase = .exhale ∧ boxTick2.state.cycleCount = 0 ∧
    boxTick3.eventLog = boxTick2.eventLog ++
      [.TICK 4 0, .PHASE_TRANSITION .exhale .holdOut 0] ∧
    boxTick3.state.phase = .holdOut ∧ boxTick3.state.cycleCount = 0 ∧
    boxTick4.eventLog = boxTick3.eventLog ++
      [.TICK 4 0, .PHASE_TRANSITION .holdOut .inhale 0, .CYCLE_COMPLETE 1 0] ∧
    boxTick4.state.phase = .inhale ∧ boxTick4.state.cycleCount = 1 := by
  simp [boxTick1_eq, boxTick2_eq, boxTick3_eq, boxTick4_eq, boxStarted_eq,
    boxS, boxK1, boxK2, boxK3, boxK4, mkKernel]

/-- C6: dispatching LOAD_PROTOCOL with a patternId that does not resolve
against the static pattern catalog leaves every field of the runtime state
unchanged and surfaces no error, while the event is still appended to the
event log. -/
theorem load_unknown_protocol_noop (k : Kernel) (pid : String) (t : ℚ) (hd : Bool)
    (h : BREATHING_PATTERNS pid = none) :
    (dispatch k (.LOAD_PROTOCOL pid t) hd).state = k.state ∧
    (dispatch k (.LOAD_PROTOCOL pid t) hd).eventLog =
      k.eventLog ++ [.LOAD_PROTOCOL pid t] := by
  constructor
  · simp [dispatch, reduceStep, h]
  · simp [dispatch]

/-- Witness for C6 at the unresolvable id "unknown". -/
theorem load_unknown_protocol_noop_witness :
    (dispatch initKernel (.LOAD_PROTOCOL "unknown" 7) false).state = initKernel.state ∧
    (dispatch initKernel (.LOAD_PROTOCOL "unknown" 7) false).eventLog =
      initKernel.eventLog ++ [.LOAD_PROTOCOL "unknown" 7] :=
  load_unknown_protocol_noop initKernel "unknown" 7 false rfl

def boxPaused : Kernel := dispatch boxStarted (.USER_INTERRUPTION .pause 0) false

def boxPausedK : Kernel :=
  mkKernel .PAUSED (some boxPattern) .inhale 0 4 0 0 ⟨0.2, 0.4, 0⟩ 0.2
    [.BOOT 0, .LOAD_PROTOCOL "box" 0, .START_SESSION 0, .USER_INTERRUPTION .pause 0]

lemma boxPaused_eq : boxPaused = boxPausedK := by
  simp only [boxPaused, boxStarted_eq]
  norm_num [dispatch, reduceStep, recomputeEntropy, calculateEntropy, boxS, boxPausedK,
    mkKernel, Kernel.mk.injEq, RuntimeState.mk.injEq, BeliefState.mk.injEq]

/-- C4 counterexample: in a reachable PAUSED state with a loaded pattern,
dispatching START_SESSION does not leave the state unchanged — it sets the
status to RUNNING (the reducer never checks the current status). -/
theorem start_session_paused_counterexample :
    boxPaused.state.status = .PAUSED ∧
    (dispatch boxPaused (.START_SESSION 1) false).state.status = .RUNNING := by
  rw [boxPaused_eq]
  constructor
  · rfl
  · norm_num [dispatch, reduceStep, recomputeEntropy, boxPausedK, mkKernel]

/-- C4 (amended): dispatching START_SESSION sets status to RUNNING whenever a
pattern is loaded — from any status, not only IDLE; only when no pattern is
loaded does it leave the state unchanged. -/
theorem start_session_amended (s : RuntimeState) (t : ℚ)
    (hinv : s.entropy = calculateEntropy s.belief) :
    (s.pattern.isSome = true →
      reduceStep s (.START_SESSION t) = { s with status := .RUNNING }) ∧
    (s.pattern = none → reduceStep s (.START_SESSION t) = s) := by
  constructor
  · intro h
    simp only [reduceStep, if_pos h, recomputeEntropy]
    rw [← hinv]
  · intro h
    have hb : s.pattern.isSome = false := by rw [h]; rfl
    simp only [reduceStep, hb, Bool.false_eq_true, if_false, recomputeEntropy]
    rw [← hinv]

/-- Witness for the amended C4 theorem at the initial state (no pattern). -/
theorem start_session_amended_witness :
    getInitialState.entropy = calculateEntropy getInitialState.belief ∧
    reduceStep getInitialState (.START_SESSION 0) = getInitialState := by
  have hinv : getInitialState.entropy = calculateEntropy getInitialState.belief := by
    norm_num [getInitialState, calculateEntropy]
  exact ⟨hinv, (start_session_amended getInitialState 0 hinv).2 rfl⟩

/-- C7: USER_INTERRUPTION while RUNNING pauses and applies the belief penalty
(attention ×0.8, rhythm_alignment ×0.5) exactly once, leaving every other
field unchanged; in any non-RUNNING status (in particular PAUSED) the
reduction changes nothing. -/
theorem user_interruption_spec (s : RuntimeState) (kind : InterruptionKind) (t : ℚ)
    (hinv : s.entropy = calculateEntropy s.belief) :
    (s.status = .RUNNING →
      (reduceStep s (.USER_INTERRUPTION kind t)).status = .PAUSED ∧
      (reduceStep s (.USER_INTERRUPTION kind t)).belief.attention =
        s.belief.attention * 0.8 ∧
      (reduceStep s (.USER_INTERRUPTION kind t)).belief.rhythm_alignment =
        s.belief.rhythm_alignment * 0.5 ∧
      (reduceStep s (.USER_INTERRUPTION kind t)).belief.arousal = s.belief.arousal ∧
      (reduceStep s (.USER_INTERRUPTION kind t)).pattern = s.pattern ∧
      (reduceStep s (.USER_INTERRUPTION kind t)).phase = s.phase ∧
      (reduceStep s (.USER_INTERRUPTION kind t)).phaseElapsed = s.phaseElapsed ∧
      (reduceStep s (.USER_INTERRUPTION kind t)).phaseDuration = s.phaseDuration ∧
      (reduceStep s (.USER_INTERRUPTION kind t)).cycleCount = s.cycleCount ∧
      (reduceStep s (.USER_INTERRUPTION kind t)).sessionDuration = s.sessionDuration) ∧
    (s.status ≠ .RUNNING → reduceStep s (.USER_INTERRUPTION kind t) = s) := by
  constructor
  · intro h
    simp [reduceStep, h, recomputeEntropy]
  · intro h
    simp only [reduceStep, if_neg h, recomputeEntropy]
    rw [← hinv]

/-- Witness for C7 at the reachable RUNNING state after loading and starting
`box`. -/
theorem user_interruption_spec_witness :
    boxS.state.status = .RUNNING ∧
    (reduceStep boxS.state (.USER_INTERRUPTION .pause 0)).status = .PAUSED ∧
    (reduceStep boxS.state (.USER_INTERRUPTION .pause 0)).belief.attention =
      boxS.state.belief.attention * 0.8 := by
  have hinv : boxS.state.entropy = calculateEntropy boxS.state.belief := by
    norm_num [boxS, mkKernel, calculateEntropy]
  have h := user_interruption_spec boxS.state .pause 0 hinv
  exact ⟨rfl, (h.1 rfl).1, (h.1 rfl).2.1⟩

/-- C10: reducing HALT sets status to IDLE and reducing SAFETY_INTERVENTION
sets status to SAFETY_LOCK; pattern, phase, phaseElapsed, phaseDuration,
cycleCount, sessionDuration and belief are all left unchanged (and so is the
derived entropy), so the session statistics and belief snapshot survive. -/
theorem halt_intervention_frame (s : RuntimeState) (reason action : String)
    (risk tH tS : ℚ) (hinv : s.entropy = calculateEntropy s.belief) :
    reduceStep s (.HALT reason tH) = { s with status := .IDLE } ∧
    reduceStep s (.SAFETY_INTERVENTION risk action tS) =
      { s with status := .SAFETY_LOCK } := by
  refine ⟨?_, ?_⟩ <;>
    · simp only [reduceStep, recomputeEntropy]
      rw [← hinv]

/-- Witness for C10 at the reachable RUNNING state after loading and starting
`box`. -/
theorem halt_intervention_frame_witness :
    reduceStep boxS.state (.HALT "cleanup" 9) = { boxS.state with status := .IDLE } := by
  have hinv : boxS.state.entropy = calculateEntropy boxS.state.belief := by
    norm_num [boxS, mkKernel, calculateEntropy]
  exact (halt_intervention_frame boxS.state "cleanup" "x" 0 9 0 hinv).1

lemma clamp_max_bounds (x : ℚ) (h : x ≤ 1) : 0 ≤ max 0 x ∧ max 0 x ≤ 1 :=
  ⟨le_max_left 0 x, max_le (by norm_num) h⟩

lemma clamp_min_bounds (x : ℚ) (h : 0 ≤ x) : 0 ≤ min 1 x ∧ min 1 x ≤ 1 :=
  ⟨le_min (by norm_num) h, min_le_left 1 x⟩

/-- C5: for every belief vector with components in [0,1], every observation
with delta_time ≥ 0, and both values of the running flag, all three
components of the updated belief remain within [0,1]. -/
theorem update_components_bounded (b : BeliefState) (obs : Observation) (run : Bool)
    (ha0 : 0 ≤ b.arousal) (ha1 : b.arousal ≤ 1)
    (ht0 : 0 ≤ b.attention) (ht1 : b.attention ≤ 1)
    (hr0 : 0 ≤ b.rhythm_alignment) (hr1 : b.rhythm_alignment ≤ 1)
    (hdt : 0 ≤ obs.delta_time) :
    (0 ≤ (update b obs run).arousal ∧ (update b obs run).arousal ≤ 1) ∧
    (0 ≤ (update b obs run).attention ∧ (update b obs run).attention ≤ 1) ∧
    (0 ≤ (update b obs run).rhythm_alignment ∧
      (update b obs run).rhythm_alignment ≤ 1) := by
  cases run with
  | false =>
    simp only [update, Bool.not_false, if_true]
    exact ⟨clamp_max_bounds _ (by nlinarith), clamp_max_bounds _ (by nlinarith),
      clamp_max_bounds _ (by nlinarith)⟩
  | true =>
    simp only [update, Bool.not_true, Bool.false_eq_true, if_false]
    split_ifs with h
    · exact ⟨clamp_min_bounds _ (by nlinarith), clamp_max_bounds _ (by nlinarith),
        clamp_max_bounds _ (by nlinarith)⟩
    · exact ⟨clamp_max_bounds _ (by nlinarith), clamp_min_bounds _ (by nlinarith),
        clamp_min_bounds _ (by nlinarith)⟩

/-- Witness for C5 at a concrete belief, observation and running flag. -/
theorem update_components_bounded_witness :
    (0 ≤ (update ⟨0.2, 0.5, 0⟩ ⟨0, none, .visible, 1⟩ true).arousal ∧
      (update ⟨0.2, 0.5, 0⟩ ⟨0, none, .visible, 1⟩ true).arousal ≤ 1) ∧
    (0 ≤ (update ⟨0.2, 0.5, 0⟩ ⟨0, none, .visible, 1⟩ true).attention ∧
      (update ⟨0.2, 0.5, 0⟩ ⟨0, none, .visible, 1⟩ true).attention ≤ 1) ∧
    (0 ≤ (update ⟨0.2, 0.5, 0⟩ ⟨0, none, .visible, 1⟩ true).rhythm_alignment ∧
      (update ⟨0.2, 0.5, 0⟩ ⟨0, none, .visible, 1⟩ true).rhythm_alignment ≤ 1) :=
  update_components_bounded ⟨0.2, 0.5, 0⟩ ⟨0, none, .visible, 1⟩ true
    (by norm_num) (by norm_num) (by norm_num) (by norm_num) (by norm_num)
    (by norm_num) (by norm_num)

/-- C9: for belief components in [0,1], the entropy function is monotone
non-decreasing in arousal and monotone non-increasing in rhythm_alignment
(the other components fixed), and entropy ≥ 0.2 · arousal: rhythm alignment
suppresses at most 80% of the arousal contribution. -/
theorem entropy_monotone_and_residual :
    (∀ a1 a2 att r : ℚ, 0 ≤ a1 → a1 ≤ 1 → 0 ≤ a2 → a2 ≤ 1 → 0 ≤ r → r ≤ 1 →
      a1 ≤ a2 → calculateEntropy ⟨a1, att, r⟩ ≤ calculateEntropy ⟨a2, att, r⟩) ∧
    (∀ a att r1 r2 : ℚ, 0 ≤ a → a ≤ 1 → 0 ≤ r1 → r1 ≤ 1 → 0 ≤ r2 → r2 ≤ 1 →
      r1 ≤ r2 → calculateEntropy ⟨a, att, r2⟩ ≤ calculateEntropy ⟨a, att, r1⟩) ∧
    (∀ a att r : ℚ, 0 ≤ a → a ≤ 1 → 0 ≤ r → r ≤ 1 →
      0.2 * a ≤ calculateEntropy ⟨a, att, r⟩) := by
  refine ⟨?_, ?_, ?_⟩
  · intro a1 a2 att r _ _ _ _ _ hr1 hle
    simp only [calculateEntropy]
    exact min_le_min (le_refl 1)
      (max_le_max (le_refl 0) (by nlinarith))
  · intro a att r1 r2 ha0 _ _ _ _ _ hle
    simp only [calculateEntropy]
    exact min_le_min (le_refl 1)
      (max_le_max (le_refl 0) (by nlinarith))
  · intro a att r ha0 ha1 hr0 hr1
    simp only [calculateEntropy]
    refine le_min (by nlinarith) (le_trans (by nlinarith) (le_max_right 0 _))

/-- Witness for C9: monotonicity in arousal at a concrete pair of beliefs. -/
theorem entropy_monotone_and_residual_witness :
    calculateEntropy ⟨0.5, 0.5, 0.5⟩ ≤ calculateEntropy ⟨0.9, 0.5, 0.5⟩ :=
  entropy_monotone_and_residual.1 0.5 0.9 0.5 0.5 (by norm_num) (by norm_num)
    (by norm_num) (by norm_num) (by norm_num) (by norm_num) (by norm_num)

/-- C1: for every state with a loaded pattern and every registry, the guard
check returns the HALT_PREVENTATIVE intervention (risk 0.9) exactly when the
registry holds a record for the active pattern with resonance_score < 0.3 and
entropy > 0.8; otherwise the COOLDOWN_FORCED intervention (risk 0.8) exactly
when tier = 2, cycleCount > 30 and arousal > 0.9; otherwise nothing — guard A
is evaluated before guard B and at most one intervention is produced. -/
theorem guard_check_spec (s : RuntimeState) (reg : Registry) (now : ℚ)
    (p : BreathPattern) (hp : s.pattern = some p) :
    ((∃ rec, Registry.find reg p.id = some rec ∧ rec.resonance_score < 0.3) ∧
        s.entropy > 0.8 →
      check s reg now = some (.SAFETY_INTERVENTION 0.9 "HALT_PREVENTATIVE" now)) ∧
    (¬ ((∃ rec, Registry.find reg p.id = some rec ∧ rec.resonance_score < 0.3) ∧
        s.entropy > 0.8) →
      p.tier = 2 ∧ s.cycleCount > 30 ∧ s.belief.arousal > 0.9 →
      check s reg now = some (.SAFETY_INTERVENTION 0.8 "COOLDOWN_FORCED" now)) ∧
    (¬ ((∃ rec, Registry.find reg p.id = some rec ∧ rec.resonance_score < 0.3) ∧
        s.entropy > 0.8) →
      ¬ (p.tier = 2 ∧ s.cycleCount > 30 ∧ s.belief.arousal > 0.9) →
      check s reg now = none) := by
  refine ⟨?_, ?_, ?_⟩
  · rintro ⟨⟨rec, hfind, hres⟩, hent⟩
    simp [check, hp, hfind, hres, hent]
  · intro hA hB
    cases hfind : Registry.find reg p.id with
    | none => simp [check, hp, hfind, hB]
    | some rec =>
      have hno : ¬ (rec.resonance_score < 0.3 ∧ s.entropy > 0.8) := fun hc =>
        hA ⟨⟨rec, hfind, hc.1⟩, hc.2⟩
      simp [check, hp, hfind, hno, hB]
  · intro hA hB
    cases hfind : Registry.find reg p.id with
    | none => simp [check, hp, hfind, hB]
    | some rec =>
      have hno : ¬ (rec.resonance_score < 0.3 ∧ s.entropy > 0.8) := fun hc =>
        hA ⟨⟨rec, hfind, hc.1⟩, hc.2⟩
      simp [check, hp, hfind, hno, hB]

def sGuard : RuntimeState where
  status := .RUNNING
  pattern := some boxPattern
  phase := .inhale
  phaseElapsed := 0
  phaseDuration := 4
  cycleCount := 0
  sessionDuration := 0
  belief := { arousal := 0.95, attention := 0.5, rhythm_alignment := 0 }
  entropy := 0.95

def regGuard : Registry := [("box", ⟨"box", 100, 3, 0.1, 0⟩)]

/-- Witness for C1: guard A fires at a concrete low-resonance, high-entropy
state. -/
theorem guard_check_spec_witness :
    check sGuard regGuard 5 = some (.SAFETY_INTERVENTION 0.9 "HALT_PREVENTATIVE" 5) :=
  (guard_check_spec sGuard regGuard 5 boxPattern rfl).1
    ⟨⟨⟨"box", 100, 3, 0.1, 0⟩, rfl, by norm_num⟩, by norm_num [sGuard]⟩

lemma check_shape (s : RuntimeState) (reg : Registry) (now : ℚ) :
    check s reg now = none ∨
      ∃ r a, check s reg now = some (.SAFETY_INTERVENTION r a now) := by
  cases hp : s.pattern with
  | none => left; simp [check, hp]
  | some pat =>
    cases hfind : Registry.find reg pat.id with
    | none =>
      by_cases hB : pat.tier = 2 ∧ s.cycleCount > 30 ∧ s.belief.arousal > 0.9
      · right; exact ⟨0.8, "COOLDOWN_FORCED", by simp [check, hp, hfind, hB]⟩
      · left; simp [check, hp, hfind, hB]
    | some rec =>
      by_cases hA : rec.resonance_score < 0.3 ∧ s.entropy > 0.8
      · right; exact ⟨0.9, "HALT_PREVENTATIVE", by simp [check, hp, hfind, hA]⟩
      · by_cases hB : pat.tier = 2 ∧ s.cycleCount > 30 ∧ s.belief.arousal > 0.9
        · right; exact ⟨0.8, "COOLDOWN_FORCED", by simp [check, hp, hfind, hA, hB]⟩
        · left; simp [check, hp, hfind, hA, hB]

lemma dispatchInternal_cycleCount_safety (k : Kernel) (r : ℚ) (a : String) (t : ℚ) :
    (dispatchInternal k (.SAFETY_INTERVENTION r a t)).state.cycleCount =
      k.state.cycleCount := rfl

lemma dispatchInternal_cycleCount_pt (k : Kernel) (p q : BreathPhase) (t : ℚ) :
    (dispatchInternal k (.PHASE_TRANSITION p q t)).state.cycleCount =
      k.state.cycleCount := rfl

lemma dispatchInternal_cycleCount_cc (k : Kernel) (c : ℕ) (t : ℚ) :
    (dispatchInternal k (.CYCLE_COMPLETE c t)).state.cycleCount = c := rfl

lemma transitionPhase_cycleCount_le (k : Kernel) (now : ℚ) :
    k.state.cycleCount ≤ (transitionPhase k now).state.cycleCount := by
  unfold transitionPhase
  cases hp : k.state.pattern with
  | none => exact le_refl _
  | some pat =>
    simp only
    split
    · rw [dispatchInternal_cycleCount_cc, dispatchInternal_cycleCount_pt]
      exact Nat.le_succ _
    · rw [dispatchInternal_cycleCount_pt]

lemma check_eq_some (s : RuntimeState) (reg : Registry) (now : ℚ) (e : KernelEvent)
    (h : check s reg now = some e) :
    ∃ r a, e = .SAFETY_INTERVENTION r a now := by
  rcases check_shape s reg now with hc | ⟨r, a, hc⟩
  · rw [h] at hc; cases hc
  · rw [h] at hc
    exact ⟨r, a, (Option.some_injective _ hc)⟩

lemma handleTick_cycleCount_le (k : Kernel) (dt now : ℚ) (hd : Bool) :
    k.state.cycleCount ≤ (handleTick k dt now hd).state.cycleCount := by
  simp only [handleTick]
  split
  · exact le_refl _
  · split
    next hazard heq =>
      obtain ⟨r, a, rfl⟩ := check_eq_some _ _ _ _ heq
      rw [dispatchInternal_cycleCount_safety]
      split
      · refine le_trans ?_ (transitionPhase_cycleCount_le _ now)
        exact le_refl _
      · exact le_refl _
    next heq =>
      split
      · refine le_trans ?_ (transitionPhase_cycleCount_le _ now)
        exact le_refl _
      · exact le_refl _

/-- C8 counterexample: externally dispatched CYCLE_COMPLETE events can set
cycleCount to an arbitrary value — dispatching CYCLE_COMPLETE 5 and then
CYCLE_COMPLETE 3 (neither a LOAD_PROTOCOL) makes cycleCount decrease
from 5 to 3. -/
theorem cycleCount_decrease_counterexample :
    (dispatch (dispatch initKernel (.CYCLE_COMPLETE 5 0) false)
        (.CYCLE_COMPLETE 3 0) false).state.cycleCount <
      (dispatch initKernel (.CYCLE_COMPLETE 5 0) false).state.cycleCount ∧
    (dispatch initKernel (.CYCLE_COMPLETE 5 0) false).state.cycleCount = 5 ∧
    (dispatch (dispatch initKernel (.CYCLE_COMPLETE 5 0) false)
        (.CYCLE_COMPLETE 3 0) false).state.cycleCount = 3 := by
  refine ⟨?_, rfl, rfl⟩
  show (3 : ℕ) < 5
  decide

/-- C8 (amended): over dispatches of any event other than an externally
injected CYCLE_COMPLETE, cycleCount never decreases, except that a
LOAD_PROTOCOL resolving against the catalog resets it to 0 (internally
generated CYCLE_COMPLETE events during a TICK only ever increment it). -/
theorem cycleCount_monotone_amended (k : Kernel) (e : KernelEvent) (hd : Bool)
    (hcc : ∀ c t, e ≠ .CYCLE_COMPLETE c t) :
    k.state.cycleCount ≤ (dispatch k e hd).state.cycleCount ∨
      ((∃ pid t, e = .LOAD_PROTOCOL pid t) ∧
        (dispatch k e hd).state.cycleCount = 0) := by
  cases e with
  | CYCLE_COMPLETE c t => exact absurd rfl (hcc c t)
  | TICK dt ts =>
    left
    exact handleTick_cycleCount_le { k with eventLog := k.eventLog ++ [.TICK dt ts] }
      dt ts hd
  | LOAD_PROTOCOL pid t =>
    cases hfind : BREATHING_PATTERNS pid with
    | none =>
      left
      show k.state.cycleCount ≤ (reduceStep k.state (.LOAD_PROTOCOL pid t)).cycleCount
      simp [reduceStep, hfind]
    | some pat =>
      right
      refine ⟨⟨pid, t, rfl⟩, ?_⟩
      show (reduceStep k.state (.LOAD_PROTOCOL pid t)).cycleCount = 0
      simp [reduceStep, hfind, recomputeEntropy]
  | BOOT t => exact Or.inl (le_refl _)
  | START_SESSION t =>
    left
    show k.state.cycleCount ≤ (reduceStep k.state (.START_SESSION t)).cycleCount
    simp only [reduceStep, recomputeEntropy]
    split <;> exact le_refl _
  | USER_INTERRUPTION kind t =>
    left
    show k.state.cycleCount ≤ (reduceStep k.state (.USER_INTERRUPTION kind t)).cycleCount
    simp only [reduceStep, recomputeEntropy]
    split <;> exact le_refl _
  | RESUME_SESSION t =>
    left
    show k.state.cycleCount ≤ (reduceStep k.state (.RESUME_SESSION t)).cycleCount
    simp only [reduceStep, recomputeEntropy]
    split <;> exact le_refl _
  | HALT reason t => exact Or.inl (le_refl _)
  | SAFETY_INTERVENTION r a t => exact Or.inl (le_refl _)
  | PHASE_TRANSITION p q t => exact Or.inl (le_refl _)

/-- Witness for the amended C8 theorem at a concrete non-CYCLE_COMPLETE event. -/
theorem cycleCount_monotone_amended_witness :
    initKernel.state.cycleCount ≤
        (dispatch initKernel (.START_SESSION 0) false).state.cycleCount ∨
      ((∃ pid t, (KernelEvent.START_SESSION 0) = .LOAD_PROTOCOL pid t) ∧
        (dispatch initKernel (.START_SESSION 0) false).state.cycleCount = 0) :=
  cycleCount_monotone_amended initKernel (.START_SESSION 0) false
    (fun _ _ h => KernelEvent.noConfusion h)

end ZenB
